import Mathlib

/-
Verification of the rt-rk uCar bridge (Eclipse SDV hackathon repository).

The development shallowly embeds the Rust sources:
  * `src/rust_ws/ucar_core/src/lib.rs`      — sensor data structures and utilities,
  * `src/rust_ws/ucar_core/src/image_pub.rs` — the ego-vehicle locator loop and
    the process-wide cancellation flag,
  * `src/rust_ws/ucar_pub/src/ucar_pub.rs`  — the hello-world publisher counter loop.

Foreign effects are made explicit: the system clock becomes an `Option Nat`
argument (`none` = clock before the Unix epoch), a possibly-panicking foreign
attribute read becomes a `faults` flag on the actor, and the asynchronous world
and the cancellation flag become an explicit trace of per-iteration `Tick`s.
-/

namespace UCar

/-- Shallow embedding of `serde_json::Value` (the `data` payload field).
None of the verified functions inspect it. -/
inductive Json where
  | null
  | bool (b : Bool)
  | num (n : Int)
  | str (s : String)
  | arr (elems : List Json)
  | obj (fields : List (String × Json))

/-- `SensorMetadata` from `ucar_core/src/lib.rs`.  The Rust field types are
`String`, `u32`, `u16`, `u64`; machine integers are embedded as `Nat` with
range facts stated where the claims need them. -/
structure SensorMetadata where
  authority : String
  entity_id : Nat
  resource_id : Nat
  sequence : Nat

/-- `SensorMetadata::new_ucar` from `ucar_core/src/lib.rs`. -/
def SensorMetadata.new_ucar (resource_id sequence : Nat) : SensorMetadata :=
  { authority := "ucar"
    entity_id := 0x00010001
    resource_id := resource_id
    sequence := sequence }

/-- `UCarSensorData` from `ucar_core/src/lib.rs`. -/
structure UCarSensorData where
  sensor_id : String
  timestamp : Nat
  sensor_type : String
  data : Json
  metadata : SensorMetadata

namespace sensor_types

/-- `sensor_types::IMAGE` from `ucar_core/src/lib.rs`. -/
def IMAGE : String := "image"

/-- `sensor_types::LIDAR` from `ucar_core/src/lib.rs`. -/
def LIDAR : String := "lidar"

/-- `sensor_types::RADAR` from `ucar_core/src/lib.rs`. -/
def RADAR : String := "radar"

/-- `sensor_types::IMU` from `ucar_core/src/lib.rs`. -/
def IMU : String := "imu"

/-- `sensor_types::COLLISION` from `ucar_core/src/lib.rs`. -/
def COLLISION : String := "collision"

/-- `sensor_types::LANE_INVASION` from `ucar_core/src/lib.rs`. -/
def LANE_INVASION : String := "lane_invasion"

/-- `sensor_types::OBSTACLE_DETECTION` from `ucar_core/src/lib.rs`. -/
def OBSTACLE_DETECTION : String := "obstacle_detection"

end sensor_types

namespace resource_ids

/-- `resource_ids::IMAGE` from `ucar_core/src/lib.rs`. -/
def IMAGE : Nat := 0x1000

/-- `resource_ids::LIDAR` from `ucar_core/src/lib.rs`. -/
def LIDAR : Nat := 0x1001

/-- `resource_ids::RADAR` from `ucar_core/src/lib.rs`. -/
def RADAR : Nat := 0x1002

/-- `resource_ids::IMU` from `ucar_core/src/lib.rs`. -/
def IMU : Nat := 0x1003

/-- `resource_ids::COLLISION` from `ucar_core/src/lib.rs`. -/
def COLLISION : Nat := 0x1004

/-- `resource_ids::LANE_INVASION` from `ucar_core/src/lib.rs`. -/
def LANE_INVASION : Nat := 0x1005

/-- `resource_ids::OBSTACLE_DETECTION` from `ucar_core/src/lib.rs`. -/
def OBSTACLE_DETECTION : Nat := 0x1006

end resource_ids

/-- The seven constants of the `resource_ids` module, in source order. -/
def coreResourceIds : List Nat :=
  [resource_ids.IMAGE, resource_ids.LIDAR, resource_ids.RADAR, resource_ids.IMU,
   resource_ids.COLLISION, resource_ids.LANE_INVASION, resource_ids.OBSTACLE_DETECTION]

namespace utils

/-- `utils::create_image_sensor_data` from `ucar_core/src/lib.rs`.  The call
`SystemTime::now().duration_since(UNIX_EPOCH)` is embedded as the explicit
argument `clock : Option Nat`: `some t` is a clock `t` seconds past the Unix
epoch, `none` a clock before the epoch, on which `unwrap_or_default()` yields
the zero duration.  The Lean function is total, matching the fact that the
Rust function has no panicking path. -/
def create_image_sensor_data (sensor_id : String) (image_data : Json)
    (sequence : Nat) (clock : Option Nat) : UCarSensorData :=
  { sensor_id := sensor_id
    timestamp := clock.getD 0
    sensor_type := sensor_types.IMAGE
    data := image_data
    metadata := SensorMetadata.new_ucar resource_ids.IMAGE sequence }

/-- `utils::create_lidar_sensor_data` from `ucar_core/src/lib.rs`; the clock is
embedded exactly as in `create_image_sensor_data`. -/
def create_lidar_sensor_data (sensor_id : String) (lidar_data : Json)
    (sequence : Nat) (clock : Option Nat) : UCarSensorData :=
  { sensor_id := sensor_id
    timestamp := clock.getD 0
    sensor_type := sensor_types.LIDAR
    data := lidar_data
    metadata := SensorMetadata.new_ucar resource_ids.LIDAR sequence }

/-- `utils::validate_sensor_data` from `ucar_core/src/lib.rs`.  The Rust
function takes `&UCarSensorData` and returns `Result<(), String>`; the
borrow is immutable, so the embedding is a pure function on the record. -/
def validate_sensor_data (d : UCarSensorData) : Except String Unit :=
  if d.sensor_id.isEmpty then Except.error "Sensor ID cannot be empty"
  else if d.sensor_type.isEmpty then Except.error "Sensor type cannot be empty"
  else if d.timestamp = 0 then Except.error "Timestamp cannot be zero"
  else Except.ok ()

end utils

/- ----------------------------------------------------------------------
image_pub.rs: constants, the cancellation flag, and the locator loop
---------------------------------------------------------------------- -/

/-- `POLLING_EGO_MS` from `ucar_core/src/image_pub.rs`. -/
def POLLING_EGO_MS : Nat := 1000

/-- `CLIENT_TIME_MS` from `ucar_core/src/image_pub.rs`. -/
def CLIENT_TIME_MS : Nat := 5000

/-- `RESOURCE_VELOCITY_STATUS` from `ucar_core/src/image_pub.rs`. -/
def RESOURCE_VELOCITY_STATUS : Nat := 0x8001

/-- `RESOURCE_CLOCK_STATUS` from `ucar_core/src/image_pub.rs`. -/
def RESOURCE_CLOCK_STATUS : Nat := 0x8002

/-- `RESOURCE_LANE_INVASION_SENSOR` from `ucar_core/src/image_pub.rs`. -/
def RESOURCE_LANE_INVASION_SENSOR : Nat := 0x8010

/-- `RESOURCE_COLLISION_SENSOR` from `ucar_core/src/image_pub.rs`. -/
def RESOURCE_COLLISION_SENSOR : Nat := 0x8011

/-- `RESOURCE_OBSTACLE_DETECTION_SENSOR` from `ucar_core/src/image_pub.rs`. -/
def RESOURCE_OBSTACLE_DETECTION_SENSOR : Nat := 0x8012

/-- `RESOURCE_IMAGE_SENSOR` from `ucar_core/src/image_pub.rs`. -/
def RESOURCE_IMAGE_SENSOR : Nat := 0x8013

/-- `RESOURCE_RADAR_SENSOR` from `ucar_core/src/image_pub.rs`. -/
def RESOURCE_RADAR_SENSOR : Nat := 0x8014

/-- `RESOURCE_LIDAR_SENSOR` from `ucar_core/src/image_pub.rs`. -/
def RESOURCE_LIDAR_SENSOR : Nat := 0x8015

/-- `RESOURCE_IMU_SENSOR` from `ucar_core/src/image_pub.rs`. -/
def RESOURCE_IMU_SENSOR : Nat := 0x8016

/-- The seven per-sensor resource-id constants of `image_pub.rs`, in source
order (the two status ids `0x8001`/`0x8002` are not sensor ids). -/
def imagePubSensorResourceIds : List Nat :=
  [RESOURCE_LANE_INVASION_SENSOR, RESOURCE_COLLISION_SENSOR,
   RESOURCE_OBSTACLE_DETECTION_SENSOR, RESOURCE_IMAGE_SENSOR,
   RESOURCE_RADAR_SENSOR, RESOURCE_LIDAR_SENSOR, RESOURCE_IMU_SENSOR]

/-- One CARLA actor attribute, as observed through `attribute.id()` and
`attribute.value_string()` in `image_pub.rs`. -/
structure AttrKV where
  attr_id : String
  value : String

/-- One CARLA actor as the locator loop observes it: its numeric id, its
attribute list, and whether the foreign `actor.attributes()` read faults
(panics) during this pass — the fault that `std::panic::catch_unwind`
intercepts in `image_pub.rs`. -/
structure Actor where
  actor_id : Nat
  attrs : List AttrKV
  faults : Bool

/-- The inner attribute scan of `image_pub.rs` (lines 158–170): true when some
attribute has id `role_name` and value equal to the marker. -/
def hasRole (marker : String) : List AttrKV → Bool
  | [] => false
  | attr :: rest =>
    if attr.attr_id = "role_name" ∧ attr.value = marker then true
    else hasRole marker rest

/-- Outcome of reading one actor inside `catch_unwind` (lines 156–172): the
closure returns `Some(actor.id())` on a role match, `None` otherwise, and the
`Err(_)` arm of `catch_unwind` is a fault of the foreign attribute read. -/
inductive ReadOutcome where
  | found (id : Nat)
  | noMatch
  | faulted

/-- One guarded per-actor attribute read of the locator loop. -/
def readActorRole (marker : String) (a : Actor) : ReadOutcome :=
  if a.faults then ReadOutcome.faulted
  else if hasRole marker a.attrs then ReadOutcome.found a.actor_id
  else ReadOutcome.noMatch

/-- One pass of the locator over a world snapshot (the `for actor in
actors.iter()` loop, lines 154–183): `Ok(Some(id))` breaks with the id,
`Ok(None)` and `Err(_)` both continue with the next actor. -/
def scanActors (marker : String) : List Actor → Option Nat
  | [] => none
  | a :: rest =>
    match readActorRole marker a with
    | ReadOutcome.found id => some id
    | ReadOutcome.noMatch => scanActors marker rest
    | ReadOutcome.faulted => scanActors marker rest

/-- What one iteration of the `while` loop (lines 146–187) observes: the value
of the `running` flag at the loop-condition check, and the actor snapshot
the subsequent `world.actors()` call returns. -/
structure Tick where
  cancelled : Bool
  actors : List Actor

/-- The ego-vehicle wait loop of `image_pub.rs` (lines 146–187) over an
explicit trace of iterations: at each iteration the flag is checked first
(`running.load`), a cancelled flag exits the loop with no actor selected;
otherwise the snapshot is scanned and a match exits with its id, else the
loop sleeps `POLLING_EGO_MS` and continues with the next tick.  An exhausted
trace models a run observed up to that point with no selection made. -/
def locateLoop (marker : String) : List Tick → Option Nat
  | [] => none
  | t :: rest =>
    if t.cancelled then none
    else
      match scanActors marker t.actors with
      | some id => some id
      | none => locateLoop marker rest

/-- The check after the loop (lines 189–193): `ego_vehicle_id.is_none()`
returns `Err("Ego vehicle not found")` before any sensor setup; otherwise
`main` proceeds to `setup_sensor_with_transport` with the found id. -/
def bridgePostLocate (r : Option Nat) : Except String Nat :=
  match r with
  | none => Except.error "Ego vehicle not found"
  | some id => Except.ok id

/-- Sensor attachment in `main` happens only on the `Ok` path of the
post-locate check: everything after line 193 is unreachable when the check
returned early. -/
def attachmentPerformed : Except String Nat → Bool
  | Except.ok _ => true
  | Except.error _ => false

/- ----------------------------------------------------------------------
image_pub.rs: the cancellation flag as a transition system
---------------------------------------------------------------------- -/

/-- `Arc::new(AtomicBool::new(true))` (line 81): the flag starts in the
running (not-cancelled) state. -/
def initialRunning : Bool := true

/-- The ctrl-c handler body (lines 84–88): `running_clone.store(false)`,
the only write to the flag in the program. -/
def handlerStep (_s : Bool) : Bool := false

/-- Flag value after `fires` invocations of the shutdown-signal handler,
the only writer: every other access in `image_pub.rs` is a `load`. -/
def runningAfter : Nat → Bool
  | 0 => initialRunning
  | n + 1 => handlerStep (runningAfter n)

/- ----------------------------------------------------------------------
ucar_pub.rs: the hello-world publisher counter loop
---------------------------------------------------------------------- -/

/-- The modulus of the `u32` counter of `ucar_pub.rs` (`let mut counter = 0u32`). -/
def U32_MOD : Nat := 2 ^ 32

/-- The counter loop of `ucar_pub/src/ucar_pub.rs` (lines 61–101) over an
explicit finite prefix of iterations, each described by the boolean result
of `transport.send`.  Per iteration the loop does `counter += 1` first,
builds the message carrying the incremented counter, and sends it; the
match on the send result only logs.  The counter is a `u32`, so the
increment is taken modulo `2 ^ 32` (release-build wrapping semantics; a
debug build would instead abort at the 2^32-th increment).  Returns the
final counter value and the counter values carried by the successfully
sent messages, in order.  (Serialization uses `expect`, so an encode
failure would abort the process; it is not a recoverable branch of this
loop.) -/
def runPub (counter : Nat) : List Bool → Nat × List Nat
  | [] => (counter, [])
  | sendOk :: rest =>
    let c := (counter + 1) % U32_MOD
    let r := runPub c rest
    (r.1, (if sendOk then [c] else []) ++ r.2)

/- ----------------------------------------------------------------------
Helper lemmas
---------------------------------------------------------------------- -/

/-- On a fault-free snapshot, one locator pass returns exactly the first
actor, in enumeration order, carrying a matching `role_name` attribute. -/
theorem scanActors_eq_find (marker : String) (actors : List Actor)
    (h : ∀ a ∈ actors, a.faults = false) :
    scanActors marker actors
      = (actors.find? (fun a => hasRole marker a.attrs)).map Actor.actor_id := by
  induction actors with
  | nil => rfl
  | cons a rest ih =>
    have ha : a.faults = false := h a (by simp)
    have hrest : ∀ b ∈ rest, b.faults = false := fun b hb => h b (by simp [hb])
    by_cases hr : hasRole marker a.attrs = true
    · simp [scanActors, readActorRole, ha, hr, List.find?]
    · simp only [Bool.not_eq_true] at hr
      simp [scanActors, readActorRole, ha, hr, List.find?, ih hrest]

/-- A pass that finds no match on any tick of the trace selects no actor. -/
theorem locateLoop_none (marker : String) (trace : List Tick)
    (h : ∀ t ∈ trace, scanActors marker t.actors = none) :
    locateLoop marker trace = none := by
  induction trace with
  | nil => rfl
  | cons t rest ih =>
    have ht : scanActors marker t.actors = none := h t (by simp)
    have hrest : ∀ u ∈ rest, scanActors marker u.actors = none :=
      fun u hu => h u (by simp [hu])
    by_cases hc : t.cancelled
    · simp [locateLoop, hc]
    · simp [locateLoop, hc, ht, ih hrest]

/-- If every tick before a cancelled tick scans to no match, the loop exits
with no actor selected, whatever comes after the cancelled tick. -/
theorem locateLoop_cancelled (marker : String) (pre : List Tick) (tc : Tick)
    (rest : List Tick) (hcan : tc.cancelled = true)
    (hpre : ∀ t ∈ pre, scanActors marker t.actors = none) :
    locateLoop marker (pre ++ tc :: rest) = none := by
  induction pre with
  | nil => simp [locateLoop, hcan]
  | cons p ps ih =>
    have hp : scanActors marker p.actors = none := hpre p (by simp)
    have hps : ∀ t ∈ ps, scanActors marker t.actors = none :=
      fun t ht => hpre t (by simp [ht])
    by_cases hc : p.cancelled
    · simp [locateLoop, hc]
    · simp [locateLoop, hc, hp, ih hps]

/-- The flag reads `false` after any positive number of handler firings. -/
theorem runningAfter_pos (n : Nat) (h : 0 < n) : runningAfter n = false := by
  cases n with
  | zero => exact absurd h (by simp)
  | succ m => rfl

/-- Characterization of the publisher counter loop: starting from a counter
value `c` in `u32` range, the final counter is `c` plus the number of
iterations, modulo `2 ^ 32`, and the sent messages carry `(c + i + 1) % 2^32`
exactly for the zero-based iteration indices `i` whose send succeeded, in
order. -/
theorem runPub_spec (sends : List Bool) (c : Nat) (hc : c < U32_MOD) :
    (runPub c sends).1 = (c + sends.length) % U32_MOD ∧
    (runPub c sends).2
      = ((List.range sends.length).filter (fun i => sends.getD i false)).map
          (fun i => (c + i + 1) % U32_MOD) := by
  have hM : U32_MOD = 4294967296 := by norm_num [U32_MOD]
  induction sends generalizing c hc with
  | nil => simp [runPub, Nat.mod_eq_of_lt hc]
  | cons ok rest ih =>
    obtain ⟨ih1, ih2⟩ := ih ((c + 1) % U32_MOD) (Nat.mod_lt _ (by norm_num [U32_MOD]))
    constructor
    · simp only [runPub, ih1, List.length_cons]
      rw [hM]
      omega
    · simp only [runPub, ih2, List.length_cons, List.range_succ_eq_map]
      by_cases hok : ok
      · simp only [hok, if_pos rfl]
        simp [List.filter_map, Function.comp_def, List.map_map]
        intro i _ _
        rw [hM]
        omega
      · simp only [Bool.not_eq_true] at hok
        simp [hok, List.filter_map, Function.comp_def, List.map_map]
        intro i _ _
        rw [hM]
        omega

/- ----------------------------------------------------------------------
Claim theorems
---------------------------------------------------------------------- -/

/-- C1: on every fault-free actor snapshot, one locator pass selects exactly
the first actor in enumeration order with a `role_name` attribute equal to the
marker; over a trace whose ticks never scan to a match the loop selects no
actor before cancellation; and on the snapshot `[{id 1, role "other"},
{id 2, role "target"}]` with marker `"target"` the loop yields handle id 2. -/
theorem c1_locator_first_match :
    (∀ (marker : String) (actors : List Actor), (∀ a ∈ actors, a.faults = false) →
      scanActors marker actors
        = (actors.find? (fun a => hasRole marker a.attrs)).map Actor.actor_id) ∧
    (∀ (marker : String) (trace : List Tick),
      (∀ t ∈ trace, scanActors marker t.actors = none) →
      locateLoop marker trace = none) ∧
    locateLoop "target"
      [{ cancelled := false,
         actors := [{ actor_id := 1, attrs := [{ attr_id := "role_name", value := "other" }],
                      faults := false },
                    { actor_id := 2, attrs := [{ attr_id := "role_name", value := "target" }],
                      faults := false }] }] = some 2 :=
  ⟨scanActors_eq_find, locateLoop_none, by decide⟩

/-- Witness for C1, instantiating the first-match characterization on a
concrete two-actor snapshot. -/
theorem c1_locator_first_match_witness :
    scanActors "target"
      [{ actor_id := 1, attrs := [{ attr_id := "role_name", value := "other" }], faults := false },
       { actor_id := 2, attrs := [{ attr_id := "role_name", value := "target" }], faults := false }]
      = (([({ actor_id := 1, attrs := [{ attr_id := "role_name", value := "other" }],
              faults := false } : Actor),
           { actor_id := 2, attrs := [{ attr_id := "role_name", value := "target" }],
             faults := false }].find? (fun a => hasRole "target" a.attrs)).map Actor.actor_id) :=
  c1_locator_first_match.1 "target" _ (by decide)

/-- C4: a fault (panic) raised by the foreign attribute read of one actor is
caught by the `catch_unwind` boundary and only skips that actor: the pass
continues on the remaining actors unchanged.  The scan is a total function of
the snapshot, so no fault aborts the whole process. -/
theorem c4_faulting_actor_skipped (marker : String) (a : Actor) (rest : List Actor)
    (h : a.faults = true) :
    scanActors marker (a :: rest) = scanActors marker rest := by
  simp [scanActors, readActorRole, h]

/-- Witness for C4: a faulting actor whose attributes would even have matched
is skipped, and the later matching actor is still found. -/
theorem c4_faulting_actor_skipped_witness :
    scanActors "target"
      ({ actor_id := 9, attrs := [{ attr_id := "role_name", value := "target" }], faults := true } ::
       [{ actor_id := 2, attrs := [{ attr_id := "role_name", value := "target" }], faults := false }])
      = scanActors "target"
          [{ actor_id := 2, attrs := [{ attr_id := "role_name", value := "target" }],
             faults := false }] :=
  c4_faulting_actor_skipped "target" _ _ rfl

/-- C5: when the cancellation flag becomes true before any tick has scanned to
a match, the locator loop selects no actor, the post-loop check returns the
distinct error `"Ego vehicle not found"` (a normal `Err` return, not a crash),
and no sensor attachment is performed. -/
theorem c5_cancelled_not_found (marker : String) (pre : List Tick) (tc : Tick)
    (rest : List Tick) (hcan : tc.cancelled = true)
    (hpre : ∀ t ∈ pre, scanActors marker t.actors = none) :
    locateLoop marker (pre ++ tc :: rest) = none ∧
    bridgePostLocate (locateLoop marker (pre ++ tc :: rest))
      = Except.error "Ego vehicle not found" ∧
    attachmentPerformed (bridgePostLocate (locateLoop marker (pre ++ tc :: rest))) = false := by
  have h := locateLoop_cancelled marker pre tc rest hcan hpre
  rw [h]
  exact ⟨rfl, rfl, rfl⟩

/-- Witness for C5 on a one-tick trace that is cancelled immediately. -/
theorem c5_cancelled_not_found_witness :
    locateLoop "ego_vehicle_role" [{ cancelled := true, actors := [] }] = none ∧
    bridgePostLocate (locateLoop "ego_vehicle_role" [{ cancelled := true, actors := [] }])
      = Except.error "Ego vehicle not found" ∧
    attachmentPerformed
      (bridgePostLocate (locateLoop "ego_vehicle_role" [{ cancelled := true, actors := [] }]))
      = false :=
  c5_cancelled_not_found "ego_vehicle_role" [] { cancelled := true, actors := [] } [] rfl
    (by decide)

/-- C6: the cancellation flag is created in the not-cancelled (`true` =
running) state, every handler firing leaves it cancelled so it transitions
at most once (only at the first firing), and it is never reset back to the
running state (monotone: a later running read implies every earlier read was
running). -/
theorem c6_flag_lifecycle :
    runningAfter 0 = true ∧
    (∀ n, 0 < n → runningAfter n = false) ∧
    (∀ m n, m ≤ n → runningAfter n = true → runningAfter m = true) ∧
    (∀ n, runningAfter n ≠ runningAfter (n + 1) → n = 0) := by
  refine ⟨rfl, runningAfter_pos, ?_, ?_⟩
  · intro m n hmn htrue
    have hn : n = 0 := by
      by_contra hne
      have hf := runningAfter_pos n (Nat.pos_of_ne_zero hne)
      rw [hf] at htrue
      exact Bool.false_ne_true htrue
    subst hn
    have hm : m = 0 := Nat.le_zero.mp hmn
    subst hm
    rfl
  · intro n hne
    by_contra h0
    have h1 := runningAfter_pos n (Nat.pos_of_ne_zero h0)
    have h2 := runningAfter_pos (n + 1) (Nat.succ_pos n)
    rw [h1, h2] at hne
    exact hne rfl

/-- Witness for C6 at concrete firing counts. -/
theorem c6_flag_lifecycle_witness :
    runningAfter 0 = true ∧ runningAfter 3 = false ∧
    runningAfter 0 = true ∧ (0 : Nat) = 0 :=
  ⟨c6_flag_lifecycle.1, c6_flag_lifecycle.2.1 3 (by decide),
   c6_flag_lifecycle.2.2.1 0 0 (Nat.le_refl 0) c6_flag_lifecycle.1,
   c6_flag_lifecycle.2.2.2 0 (by decide)⟩

/-- C7: for inputs within the Rust field types (`resource_id : u16`,
`sequence : u64`), `SensorMetadata::new_ucar` produces authority `"ucar"`,
entity id `0x00010001`, and passes the resource id and sequence through
unchanged; the fields fit the envelope schema types (`entity_id < 2^32`,
`resource_id < 2^16`, `sequence < 2^64`). -/
theorem c7_new_ucar_fields (r s : Nat) (hr : r < 2 ^ 16) (hs : s < 2 ^ 64) :
    (SensorMetadata.new_ucar r s).authority = "ucar" ∧
    (SensorMetadata.new_ucar r s).entity_id = 0x00010001 ∧
    (SensorMetadata.new_ucar r s).resource_id = r ∧
    (SensorMetadata.new_ucar r s).sequence = s ∧
    (SensorMetadata.new_ucar r s).entity_id < 2 ^ 32 ∧
    (SensorMetadata.new_ucar r s).resource_id < 2 ^ 16 ∧
    (SensorMetadata.new_ucar r s).sequence < 2 ^ 64 :=
  ⟨rfl, rfl, rfl, rfl, by norm_num [SensorMetadata.new_ucar],
   by simpa [SensorMetadata.new_ucar] using hr,
   by simpa [SensorMetadata.new_ucar] using hs⟩

/-- Witness for C7 at the image resource id and sequence 42. -/
theorem c7_new_ucar_fields_witness :
    (SensorMetadata.new_ucar 0x1000 42).authority = "ucar" ∧
    (SensorMetadata.new_ucar 0x1000 42).entity_id = 0x00010001 ∧
    (SensorMetadata.new_ucar 0x1000 42).resource_id = 0x1000 ∧
    (SensorMetadata.new_ucar 0x1000 42).sequence = 42 ∧
    (SensorMetadata.new_ucar 0x1000 42).entity_id < 2 ^ 32 ∧
    (SensorMetadata.new_ucar 0x1000 42).resource_id < 2 ^ 16 ∧
    (SensorMetadata.new_ucar 0x1000 42).sequence < 2 ^ 64 :=
  c7_new_ucar_fields 0x1000 42 (by norm_num) (by norm_num)

/-- C8: the seven constants of `resource_ids` in `ucar_core/src/lib.rs` are
pairwise distinct, and the seven per-sensor resource-id constants in
`image_pub.rs` are pairwise distinct. -/
theorem c8_resource_ids_distinct :
    coreResourceIds.Nodup ∧ imagePubSensorResourceIds.Nodup := by
  constructor <;> decide

/-- C9: `validate_sensor_data` accepts exactly the records with a non-empty
sensor id, a non-empty sensor type and a non-zero timestamp, and on rejection
reports the first violated condition in that check order.  The Rust function
takes an immutable borrow, so it is a pure function of the record and cannot
modify its input — the embedding reflects this by construction. -/
theorem c9_validate_sensor_data (d : UCarSensorData) :
    (utils.validate_sensor_data d = Except.ok () ↔
      d.sensor_id.isEmpty = false ∧ d.sensor_type.isEmpty = false ∧ d.timestamp ≠ 0) ∧
    (d.sensor_id.isEmpty = true →
      utils.validate_sensor_data d = Except.error "Sensor ID cannot be empty") ∧
    (d.sensor_id.isEmpty = false → d.sensor_type.isEmpty = true →
      utils.validate_sensor_data d = Except.error "Sensor type cannot be empty") ∧
    (d.sensor_id.isEmpty = false → d.sensor_type.isEmpty = false → d.timestamp = 0 →
      utils.validate_sensor_data d = Except.error "Timestamp cannot be zero") := by
  by_cases h1 : d.sensor_id.isEmpty <;> by_cases h2 : d.sensor_type.isEmpty <;>
    by_cases h3 : d.timestamp = 0 <;>
      simp [utils.validate_sensor_data, h1, h2, h3]

/-- Witness for C9: a record with an empty sensor id is rejected with the
sensor-id message, the first check in order. -/
theorem c9_validate_sensor_data_witness :
    utils.validate_sensor_data
      { sensor_id := "", timestamp := 5, sensor_type := "image", data := Json.null,
        metadata := SensorMetadata.new_ucar 0x1000 0 }
      = Except.error "Sensor ID cannot be empty" :=
  (c9_validate_sensor_data
    { sensor_id := "", timestamp := 5, sensor_type := "image", data := Json.null,
      metadata := SensorMetadata.new_ucar 0x1000 0 }).2.1 (by decide)

/-- C10: `create_image_sensor_data` (resp. `create_lidar_sensor_data`) returns
a record with sensor type `"image"` (resp. `"lidar"`) and resource id `0x1000`
(resp. `0x1001`), passing sensor id and sequence through unchanged; both are
total functions of their inputs (no panicking path), and when the clock reads
before the Unix epoch the timestamp falls back to 0, a value
`validate_sensor_data` then rejects. -/
theorem c10_create_sensor_data (sid : String) (payload : Json) (seq : Nat)
    (clock : Option Nat) :
    (utils.create_image_sensor_data sid payload seq clock).sensor_type = "image" ∧
    (utils.create_image_sensor_data sid payload seq clock).metadata.resource_id = 0x1000 ∧
    (utils.create_image_sensor_data sid payload seq clock).sensor_id = sid ∧
    (utils.create_image_sensor_data sid payload seq clock).metadata.sequence = seq ∧
    (utils.create_lidar_sensor_data sid payload seq clock).sensor_type = "lidar" ∧
    (utils.create_lidar_sensor_data sid payload seq clock).metadata.resource_id = 0x1001 ∧
    (utils.create_lidar_sensor_data sid payload seq clock).sensor_id = sid ∧
    (utils.create_lidar_sensor_data sid payload seq clock).metadata.sequence = seq ∧
    (clock = none →
      (utils.create_image_sensor_data sid payload seq clock).timestamp = 0 ∧
      utils.validate_sensor_data (utils.create_image_sensor_data sid payload seq clock)
        ≠ Except.ok () ∧
      (utils.create_lidar_sensor_data sid payload seq clock).timestamp = 0 ∧
      utils.validate_sensor_data (utils.create_lidar_sensor_data sid payload seq clock)
        ≠ Except.ok ()) := by
  refine ⟨rfl, rfl, rfl, rfl, rfl, rfl, rfl, rfl, ?_⟩
  intro hc
  subst hc
  by_cases h1 : sid.isEmpty <;>
    simp [utils.create_image_sensor_data, utils.create_lidar_sensor_data,
      utils.validate_sensor_data, sensor_types.IMAGE, sensor_types.LIDAR, h1,
      show "image".isEmpty = false by decide, show "lidar".isEmpty = false by decide]

/-- Witness for C10 at a concrete sensor id and a clock before the epoch. -/
theorem c10_create_sensor_data_witness :
    (utils.create_image_sensor_data "cam" Json.null 7 none).sensor_type = "image" ∧
    (utils.create_image_sensor_data "cam" Json.null 7 none).metadata.resource_id = 0x1000 ∧
    (utils.create_image_sensor_data "cam" Json.null 7 none).timestamp = 0 ∧
    utils.validate_sensor_data (utils.create_image_sensor_data "cam" Json.null 7 none)
      ≠ Except.ok () := by
  have h := c10_create_sensor_data "cam" Json.null 7 none
  exact ⟨h.1, h.2.1, (h.2.2.2.2.2.2.2.2 rfl).1, (h.2.2.2.2.2.2.2.2 rfl).2.1⟩

/-- C2 counterexample: in the `ucar_pub` counter loop, the counter is
incremented at the top of every iteration before encode and send.  With one
sample whose send fails, the counter ends at 1, not 0; and the first
successfully sent message carries counter 1, not 0. -/
theorem c2_counter_counterexample :
    (runPub 0 [false]).1 = 1 ∧ (runPub 0 [false]).1 ≠ 0 ∧
    (runPub 0 [false]).2 = [] ∧
    (runPub 0 [true]).2 = [1] ∧ ([1] : List Nat) ≠ [0] := by
  decide

/-- C2 amended: the `u32` counter starts at 0 and is incremented exactly once
per loop iteration, before the message is built and sent and regardless of
the send outcome; after `n` samples the counter equals `n % 2^32` even if
every send failed, and the messages that do appear carry value
`(i + 1) % 2^32` exactly for the zero-based iteration indices `i` whose send
succeeded, in order. -/
theorem c2_counter_amended (sends : List Bool) :
    (runPub 0 sends).1 = sends.length % U32_MOD ∧
    (runPub 0 sends).2
      = ((List.range sends.length).filter (fun i => sends.getD i false)).map
          (fun i => (i + 1) % U32_MOD) := by
  obtain ⟨h1, h2⟩ := runPub_spec sends 0 (by norm_num [U32_MOD])
  refine ⟨by simpa using h1, ?_⟩
  rw [h2]
  apply List.map_congr_left
  intro i _
  norm_num

end UCar
